import Mathlib

/-!
Verification of the stream-logs-demo backend core: the session registry
(`app/session_registry.py`), the system monitor state machine
(`app/system_monitor.py`), the log clearing helper (`app/logger.py`) and the
SSE tailing generator (`app/routes/logs.py`), shallowly embedded in Lean.

Python dictionaries keyed by session id are modelled as association lists
(`List (String × α)`); Python object references (the mutable per-session
metadata dicts and the `SystemMonitor` objects) are modelled as addresses
(`Nat`) into explicit heaps (`Nat → Metadata`, `Nat → SystemMonitor`), so that
the sharing/aliasing behaviour of the source is preserved.  Exceptions are
modelled with `Except`; the only exception source relevant to the registry is
a log write raising inside `SystemMonitor.stop` (a broken file handler),
modelled by the `logRaises` field.
-/

/-- Python dict lookup `d.get(k)` / `k in d` over an association list
(first match wins; real dicts have unique keys). -/
def lookupA {α : Type} (k : String) : List (String × α) → Option α
  | [] => none
  | (k', v) :: rest => if k' = k then some v else lookupA k rest

/-- Python dict assignment `d[k] = v`: replaces the value in place when the
key is present, otherwise appends a new entry (insertion order preserved). -/
def insertA {α : Type} (k : String) (v : α) :
    List (String × α) → List (String × α)
  | [] => [(k, v)]
  | (k', v') :: rest =>
      if k' = k then (k, v) :: rest else (k', v') :: insertA k v rest

/-- Python dict deletion `del d[k]` (under unique keys, dropping every entry
with the key is exact). -/
def eraseA {α : Type} (k : String) :
    List (String × α) → List (String × α)
  | [] => []
  | (k', v) :: rest =>
      if k' = k then eraseA k rest else (k', v) :: eraseA k rest

theorem lookupA_eq_none_iff {α : Type} (k : String) (l : List (String × α)) :
    lookupA k l = none ↔ k ∉ l.map Prod.fst := by
  induction l with
  | nil => simp [lookupA]
  | cons p rest ih =>
      obtain ⟨k', v⟩ := p
      by_cases h : k' = k
      · subst h
        simp [lookupA]
      · simp [lookupA, h, ih, Ne.symm h]

theorem lookupA_insertA_self {α : Type} (k : String) (v : α)
    (l : List (String × α)) : lookupA k (insertA k v l) = some v := by
  induction l with
  | nil => simp [insertA, lookupA]
  | cons p rest ih =>
      obtain ⟨k', v'⟩ := p
      by_cases h : k' = k <;> simp [insertA, lookupA, h, ih]

theorem lookupA_insertA_ne {α : Type} (k k' : String) (v : α)
    (l : List (String × α)) (hne : k' ≠ k) :
    lookupA k' (insertA k v l) = lookupA k' l := by
  induction l with
  | nil => simp [insertA, lookupA, Ne.symm hne]
  | cons p rest ih =>
      obtain ⟨k'', v''⟩ := p
      by_cases h : k'' = k
      · subst h
        simp [insertA, lookupA, Ne.symm hne, hne]
      · by_cases h2 : k'' = k'
        · subst h2
          simp [insertA, lookupA, hne, ih]
        · simp [insertA, lookupA, h, h2, ih]

theorem lookupA_eraseA_self {α : Type} (k : String) (l : List (String × α)) :
    lookupA k (eraseA k l) = none := by
  induction l with
  | nil => rfl
  | cons p rest ih =>
      obtain ⟨k', v⟩ := p
      by_cases h : k' = k <;> simp [eraseA, lookupA, h, ih]

theorem lookupA_eraseA_ne {α : Type} (k k' : String)
    (l : List (String × α)) (hne : k' ≠ k) :
    lookupA k' (eraseA k l) = lookupA k' l := by
  induction l with
  | nil => rfl
  | cons p rest ih =>
      obtain ⟨k'', v⟩ := p
      by_cases h : k'' = k
      · subst h
        simp [eraseA, lookupA, Ne.symm hne, ih]
      · by_cases h2 : k'' = k'
        · subst h2
          simp [eraseA, lookupA, h]
        · simp [eraseA, lookupA, h, h2, ih]

theorem eraseA_sublist {α : Type} (k : String) (l : List (String × α)) :
    List.Sublist (eraseA k l) l := by
  induction l with
  | nil => exact List.Sublist.refl _
  | cons p rest ih =>
      obtain ⟨k', v⟩ := p
      by_cases h : k' = k
      · simpa [eraseA, h] using ih.cons (k', v)
      · simpa [eraseA, h] using ih.cons₂ (k', v)

theorem mem_of_lookupA_eq_some {α : Type} {k : String} {v : α}
    {l : List (String × α)} (h : lookupA k l = some v) : (k, v) ∈ l := by
  induction l with
  | nil => simp [lookupA] at h
  | cons p rest ih =>
      obtain ⟨k', v'⟩ := p
      by_cases hk : k' = k
      · subst hk
        simp [lookupA] at h
        simp [h]
      · simp [lookupA, hk] at h
        exact List.mem_cons_of_mem _ (ih h)

theorem lookupA_of_mem_nodup {α : Type} {k : String} {v : α}
    {l : List (String × α)} (hnd : (l.map Prod.fst).Nodup)
    (hmem : (k, v) ∈ l) : lookupA k l = some v := by
  induction l with
  | nil => simp at hmem
  | cons p rest ih =>
      obtain ⟨k', v'⟩ := p
      simp only [List.map_cons, List.nodup_cons] at hnd
      rcases List.mem_cons.mp hmem with h | h
      · obtain ⟨h1, h2⟩ := Prod.mk.injEq .. ▸ h
        simp [lookupA, h1.symm, h2]
      · have hne : k' ≠ k := by
          intro he
          subst he
          exact hnd.1 (List.mem_map.mpr ⟨(k', v), h, rfl⟩)
        simp [lookupA, hne, ih hnd.2 h]

theorem mem_insertA {α : Type} {k : String} {v : α} {p : String × α}
    {l : List (String × α)} (h : p ∈ insertA k v l) :
    p = (k, v) ∨ p ∈ l := by
  induction l with
  | nil => simpa [insertA] using h
  | cons q rest ih =>
      obtain ⟨k', v'⟩ := q
      by_cases hk : k' = k
      · simp only [insertA, hk, if_true, List.mem_cons] at h
        rcases h with h | h
        · exact Or.inl h
        · exact Or.inr (List.mem_cons_of_mem _ h)
      · simp only [insertA, hk, if_false, List.mem_cons] at h
        rcases h with h | h
        · exact Or.inr (List.mem_cons.mpr (Or.inl h))
        · rcases ih h with h2 | h2
          · exact Or.inl h2
          · exact Or.inr (List.mem_cons_of_mem _ h2)

theorem mem_eraseA {α : Type} {k : String} {p : String × α}
    {l : List (String × α)} (h : p ∈ eraseA k l) : p ∈ l :=
  (eraseA_sublist k l).mem h

theorem map_fst_insertA {α : Type} (k : String) (v : α)
    (l : List (String × α)) :
    (insertA k v l).map Prod.fst =
      if (lookupA k l).isSome then l.map Prod.fst
      else l.map Prod.fst ++ [k] := by
  induction l with
  | nil => simp [insertA, lookupA]
  | cons p rest ih =>
      obtain ⟨k', v'⟩ := p
      by_cases h : k' = k
      · subst h
        simp [insertA, lookupA]
      · by_cases h2 : (lookupA k rest).isSome <;>
          simp [insertA, lookupA, h, h2, ih]

theorem length_insertA {α : Type} (k : String) (v : α)
    (l : List (String × α)) :
    (insertA k v l).length =
      if (lookupA k l).isSome then l.length else l.length + 1 := by
  induction l with
  | nil => simp [insertA, lookupA]
  | cons p rest ih =>
      obtain ⟨k', v'⟩ := p
      by_cases h : k' = k
      · subst h
        simp [insertA, lookupA]
      · by_cases h2 : (lookupA k rest).isSome <;>
          simp [insertA, lookupA, h, h2, ih]

/-!
`app/system_utils.py` / `app/system_monitor.py`: metric snapshots and the
classified log lines written by the monitoring loop.  The loop first draws a
log type from the weighted random choice over `["INFO", "WARNING", "ERROR"]`
(weights 0.7 / 0.2 / 0.1); the draw outcome and the random pick used by the
nominal-error fallback are explicit parameters here.  Percentages and load
averages are embedded as rationals.
-/

/-- The fields of a `collect_system_metrics()` snapshot consumed by the
monitor's branching (`total_ram_percent`, `load1`, `cpu_percent`). -/
structure Metrics where
  total_ram_percent : ℚ
  load1 : ℚ
  cpu_percent : ℚ
  deriving DecidableEq, Repr

/-- Python `logging` severity levels available on a `SessionLogger`. -/
inductive LogLevel
  | DEBUG | INFO | WARNING | ERROR | CRITICAL
  deriving DecidableEq, Repr

/-- Outcome of `random.choices(["INFO", "WARNING", "ERROR"], weights=[0.7,
0.2, 0.1])` at the top of each `_monitoring_loop` iteration. -/
inductive LogDraw
  | info | warning | error
  deriving DecidableEq, Repr

/-- The logger method `_monitoring_loop` invokes for each draw outcome. -/
def LogDraw.level : LogDraw → LogLevel
  | .info => .INFO
  | .warning => .WARNING
  | .error => .ERROR

/-- The distinct message shapes produced by `_log_info_message`,
`_log_warning_message` and `_log_error_message` (string formatting of the
embedded numbers elided). -/
inductive MonitorMsg
  | systemStats
  | highMemoryUsage (ram : ℚ)
  | highSystemLoad (load : ℚ)
  | highCpuUsage (cpu : ℚ)
  | resourceContention (ram load : ℚ)
  | criticalMemoryPressure (ram : ℚ)
  | systemOverloaded (load : ℚ)
  | nominalError (pick : Fin 4)
  deriving DecidableEq, Repr

/-- `SystemMonitor._log_warning_message`: threshold cascade RAM% > 80, then
load1 > 2, then CPU% > 50, else the contention fallback. -/
def logWarningMessage (m : Metrics) : MonitorMsg :=
  if 80 < m.total_ram_percent then .highMemoryUsage m.total_ram_percent
  else if 2 < m.load1 then .highSystemLoad m.load1
  else if 50 < m.cpu_percent then .highCpuUsage m.cpu_percent
  else .resourceContention m.total_ram_percent m.load1

/-- `SystemMonitor._log_error_message`: RAM% > 90 gives the "Critical memory
pressure" line, then load1 > 4 the "System overloaded" line, else one of four
fixed nominal messages chosen by `random.choice`. -/
def logErrorMessage (m : Metrics) (pick : Fin 4) : MonitorMsg :=
  if 90 < m.total_ram_percent then .criticalMemoryPressure m.total_ram_percent
  else if 4 < m.load1 then .systemOverloaded m.load1
  else .nominalError pick

/-- One body execution of `SystemMonitor._monitoring_loop` on a metrics
snapshot, given the weighted random draw and the nominal-error pick: the
level the line is logged at and its message. -/
def monitorLogLine (m : Metrics) (draw : LogDraw) (pick : Fin 4) :
    LogLevel × MonitorMsg :=
  match draw with
  | .info => (.INFO, .systemStats)
  | .warning => (.WARNING, logWarningMessage m)
  | .error => (.ERROR, logErrorMessage m pick)

/-!
`app/system_monitor.py`: the `SystemMonitor` start/stop state machine.  The
`_monitoring` flag, the presence of a `_monitor_thread` handle and the number
of loop launches are explicit; `logRaises` models a session logger whose
file-handler write raises (the reason `stop_monitor` in the registry guards
`monitor.stop()` with try/except).  `Except.error` carries the object state
left behind when the announcement write raises; `Except.ok` carries the new
state and the announcement lines written.
-/

structure SystemMonitor where
  monitoring : Bool
  hasThread : Bool
  startCount : Nat
  logRaises : Bool
  deriving DecidableEq, Repr

/-- `SystemMonitor.start(interval)`: under the lock, return immediately when
already monitoring; otherwise set the flag, launch the loop thread and write
one announcement line. -/
def SystemMonitor.start (m : SystemMonitor) (interval : Nat) :
    Except SystemMonitor (SystemMonitor × List String) :=
  if m.monitoring then .ok (m, [])
  else
    let m1 : SystemMonitor :=
      { m with monitoring := true, hasThread := true,
               startCount := m.startCount + 1 }
    if m.logRaises then .error m1
    else .ok (m1, ["Started system monitoring with interval: " ++
                   toString interval ++ "s"])

/-- `SystemMonitor.stop()`: under the lock, return immediately when not
monitoring; otherwise clear the flag and, when a thread handle exists, join
it (bounded), drop the handle and write one announcement line (the write is
where a broken logger raises — after the flag and handle are already
cleared). -/
def SystemMonitor.stop (m : SystemMonitor) :
    Except SystemMonitor (SystemMonitor × List String) :=
  if m.monitoring then
    if m.hasThread then
      let m1 : SystemMonitor := { m with monitoring := false, hasThread := false }
      if m.logRaises then .error m1
      else .ok (m1, ["Stopped system monitoring"])
    else .ok ({ m with monitoring := false }, [])
  else .ok (m, [])

/-- Condition under which `SystemMonitor.stop` raises instead of returning. -/
def SystemMonitor.stopRaises (m : SystemMonitor) : Prop :=
  m.monitoring = true ∧ m.hasThread = true ∧ m.logRaises = true

instance (m : SystemMonitor) : Decidable m.stopRaises := by
  unfold SystemMonitor.stopRaises
  infer_instance

/-!
`app/session_registry.py`: module-level registry state.  The two registries
`active_sessions : Dict[str, Dict[str, Any]]` and `active_monitors :
Dict[str, SystemMonitor]` hold references to mutable objects, modelled as
addresses into the `metas` / `mons` heaps.  `logFiles` is the set of
persisted `*.log` artifacts in the logs directory (`app/logger.py`);
`logLines` accumulates every line written to any log (registry diagnostics
and session-log announcements alike), so "writes no log line" is expressible.
All operations run under the single registry RLock, so each is one atomic
step here.
-/

/-- A per-session metadata dict as built by the `create_session` route:
`created_at`, `last_activity` and the `monitoring` flag. -/
structure Metadata where
  created_at : ℚ
  last_activity : ℚ
  monitoring : Bool
  deriving DecidableEq, Repr

/-- Global mutable state touched by the registry module. -/
structure RegState where
  metas : Nat → Metadata
  mons : Nat → SystemMonitor
  active_sessions : List (String × Nat)
  active_monitors : List (String × Nat)
  logFiles : List String
  logLines : List String

/-- `register_session(session_id, metadata)`: unconditional dict assignment
`active_sessions[session_id] = metadata` plus one registry log line. -/
def register_session (session_id : String) (metaAddr : Nat)
    (st : RegState) : RegState :=
  { st with
      active_sessions := insertA session_id metaAddr st.active_sessions,
      logLines := st.logLines ++ ["Registered session: " ++ session_id] }

/-- The statement `active_sessions[session_id]["monitoring"] = b`, guarded by
`if session_id in active_sessions` at both call sites: a write through the
registered metadata reference. -/
def setMonitoringFlag (st : RegState) (session_id : String) (b : Bool) :
    RegState :=
  match lookupA session_id st.active_sessions with
  | some a =>
      { st with metas := fun n =>
          if n = a then { st.metas a with monitoring := b } else st.metas n }
  | none => st

/-- `register_monitor(session_id, monitor)`: store the monitor reference,
set the session's monitoring flag when the session exists, log one line.
The source never stops a previously registered monitor here. -/
def register_monitor (session_id : String) (monAddr : Nat)
    (st : RegState) : RegState :=
  let st1 : RegState :=
    { st with active_monitors := insertA session_id monAddr st.active_monitors }
  let st2 := setMonitoringFlag st1 session_id true
  { st2 with
      logLines := st2.logLines ++
        ["Registered monitor for session: " ++ session_id] }

/-- `stop_monitor(session_id)`: when no monitor is registered, return False
touching nothing.  Otherwise call `monitor.stop()` inside try/except: on
success delete the registry entry, clear the session's monitoring flag and
return True; when `stop()` raises, the except arm logs an error line and
returns False with the deletion and flag update never reached. -/
def stop_monitor (session_id : String) (st : RegState) : RegState × Bool :=
  match lookupA session_id st.active_monitors with
  | none => (st, false)
  | some a =>
    match (st.mons a).stop with
    | .error m1 =>
        ({ st with
             mons := fun n => if n = a then m1 else st.mons n,
             logLines := st.logLines ++
               ["Error stopping monitor for session " ++ session_id] },
         false)
    | .ok (m1, lines) =>
        let st1 : RegState :=
          { st with mons := fun n => if n = a then m1 else st.mons n,
                    logLines := st.logLines ++ lines }
        let st2 : RegState :=
          { st1 with active_monitors := eraseA session_id st1.active_monitors }
        let st3 := setMonitoringFlag st2 session_id false
        ({ st3 with
             logLines := st3.logLines ++
               ["Stopped monitor for session: " ++ session_id] },
         true)

/-- `unregister_session(session_id)`: stop the monitor if active, then drop
the session record if present (plus `SessionLogger.cleanup_instance`, which
only touches the logger-instance cache and is invisible to the registry). -/
def unregister_session (session_id : String) (st : RegState) : RegState :=
  let st1 := (stop_monitor session_id st).1
  if (lookupA session_id st1.active_sessions).isSome then
    { st1 with
        active_sessions := eraseA session_id st1.active_sessions,
        logLines := st1.logLines ++ ["Unregistered session: " ++ session_id] }
  else st1

/-- `clear_all_logs()` (`app/logger.py`): cleans up every cached logger
instance then removes every `*.log` file in the logs directory, returning the
number of files deleted (file removal failures are modelled absent). -/
def clear_all_logs (st : RegState) : RegState × Nat :=
  ({ st with
       logFiles := [],
       logLines := st.logLines ++ ["Successfully deleted log files"] },
   st.logFiles.length)

/-- The dict returned by `shutdown_all`. -/
structure ShutdownCounts where
  monitors_stopped : Nat
  sessions_cleared : Nat
  logs_deleted : Nat
  deriving DecidableEq, Repr

/-- The `for session_id in list(active_monitors.keys())` loop of
`shutdown_all`: stop each monitor, counting the `stop_monitor` calls that
returned True. -/
def stopAllMonitors : List String → RegState → RegState × Nat
  | [], st => (st, 0)
  | sid :: rest, st =>
      let p1 := stop_monitor sid st
      let p2 := stopAllMonitors rest p1.1
      (p2.1, (if p1.2 then 1 else 0) + p2.2)

/-- `shutdown_all()`: snapshot the counts, stop every monitor, clear both
registries, delete all log files, return the counts dict. -/
def shutdown_all (st : RegState) : RegState × ShutdownCounts :=
  let session_count := st.active_sessions.length
  let p1 := stopAllMonitors (st.active_monitors.map Prod.fst) st
  let st2 : RegState := { p1.1 with active_monitors := [], active_sessions := [] }
  let p3 := clear_all_logs st2
  ({ p3.1 with logLines := p3.1.logLines ++ ["Shutdown complete"] },
   { monitors_stopped := p1.2,
     sessions_cleared := session_count,
     logs_deleted := p3.2 })

/-- `get_active_sessions()`: `dict(active_sessions)` — a fresh top-level
dict holding the same session-id keys bound to the same metadata-dict
references (a shallow copy; the addresses are shared with the registry). -/
def get_active_sessions (st : RegState) : List (String × Nat) :=
  st.active_sessions

/-- What the registry itself sees for a session's metadata: the record its
stored reference points at. -/
def readSessionMeta (st : RegState) (session_id : String) : Option Metadata :=
  (lookupA session_id st.active_sessions).map st.metas

/-- A caller-side mutation `snapshot[sid][field] = value` performed through a
metadata reference obtained from a snapshot: a heap write at that address
(exactly what the `start_monitoring` and `stream_logs` routes do to update
`last_activity`). -/
def writeMetaAt (st : RegState) (a : Nat) (r : Metadata) : RegState :=
  { st with metas := fun n => if n = a then r else st.metas n }

/-!
`app/routes/logs.py`: `stream_log_file`, the SSE tailing generator.  Each
loop iteration observes the global `ServerRun.exit` flag, then performs one
`readline` which yields a line, hits end-of-file, or raises; `now` is the
`time.monotonic()` reading of the iteration.  A run is driven by a finite
script of such observations; the generator's own exits are the shutdown
check, the idle timeout, and the two except arms.
-/

/-- Result of one `await file.readline()` poll. -/
inductive ReadRes
  | line (s : String) | eof | fault (msg : String)
  deriving DecidableEq, Repr

/-- Environment observations made by one iteration of the `while` loop. -/
structure StreamIter where
  exitFlag : Bool
  read : ReadRes
  now : ℚ
  deriving DecidableEq, Repr

/-- SSE frames yielded to the consumer (`data: <json>\n\n` framing elided). -/
inductive Frame
  | content (s : String)
  | idleTimeout
  | errorNotFound (s : String)
  | errorInternal (s : String)
  deriving DecidableEq, Repr

/-- How a terminating run of the generator ended.  `scriptEnd` marks a run
whose observation script ran out mid-loop (not a termination of the
generator). -/
inductive StreamEnd
  | shutdownEnd | timeoutEnd | notFoundEnd | internalEnd | scriptEnd
  deriving DecidableEq, Repr

/-- The `while not ServerRun.exit` loop: emit a content frame per line read
and reset the idle timer; on end-of-file emit the timeout frame and break
once `now - last_active > idle_timeout`, else sleep and continue; a raising
read is caught by the outer `except Exception`, which yields one error frame
and ends the stream with a 500-equivalent. -/
def streamLoop (idle_timeout : ℚ) : ℚ → List StreamIter →
    List Frame × StreamEnd
  | _, [] => ([], .scriptEnd)
  | last_active, it :: rest =>
      if it.exitFlag then ([], .shutdownEnd)
      else
        match it.read with
        | .line s =>
            let p := streamLoop idle_timeout it.now rest
            (.content s :: p.1, p.2)
        | .eof =>
            if idle_timeout < it.now - last_active then
              ([.idleTimeout], .timeoutEnd)
            else streamLoop idle_timeout last_active rest
        | .fault msg =>
            ([.errorInternal ("Error reading log file: " ++ msg)],
             .internalEnd)

/-- Result of `aiofiles.open` on the log file path. -/
inductive OpenRes
  | opened | missingFile | openFault (msg : String)
  deriving DecidableEq, Repr

/-- `stream_log_file(log_file_path, idle_timeout)`: a missing file is caught
by `except FileNotFoundError` (one error frame, 404-equivalent); any other
fault by `except Exception` (one error frame, 500-equivalent); otherwise the
tail loop runs from the initial `time.monotonic()` reading `t0`. -/
def stream_log_file (openR : OpenRes) (t0 : ℚ) (script : List StreamIter)
    (idle_timeout : ℚ) : List Frame × StreamEnd :=
  match openR with
  | .missingFile => ([.errorNotFound "Log file not found"], .notFoundEnd)
  | .openFault msg =>
      ([.errorInternal ("Error reading log file: " ++ msg)], .internalEnd)
  | .opened => streamLoop idle_timeout t0 script

/-- Frames carrying log content, as opposed to the terminal marker frames. -/
def Frame.isContent : Frame → Bool
  | .content _ => true
  | _ => false

/-!
Reachable registry states (for the flag/monitor invariant).  The process
starts with both module-level dicts empty; the HTTP layer then drives the
registry: `create_session` registers fresh ids with `monitoring: False`
metadata dicts that are fresh objects, monitors are attached to existing
sessions with working loggers, and the remaining operations take arbitrary
arguments.
-/

/-- Module state at import time: both dicts empty, no log files. -/
def initialRegState : RegState :=
  { metas := fun _ => { created_at := 0, last_activity := 0, monitoring := false },
    mons := fun _ =>
      { monitoring := false, hasThread := false, startCount := 0,
        logRaises := false },
    active_sessions := [], active_monitors := [], logFiles := [],
    logLines := [] }

/-- Registry states reachable through the registry API as the routes drive
it: sessions are registered under fresh ids with fresh `monitoring: False`
metadata objects (`create_session` builds a new dict for a new uuid), and
monitors are attached to registered sessions with non-raising loggers;
`stop_monitor`, `unregister_session` and `shutdown_all` run on anything. -/
inductive Reachable : RegState → Prop
  | init : Reachable initialRegState
  | regSession (st : RegState) (sid : String) (a : Nat) :
      Reachable st →
      lookupA sid st.active_sessions = none →
      (st.metas a).monitoring = false →
      a ∉ st.active_sessions.map Prod.snd →
      Reachable (register_session sid a st)
  | regMonitor (st : RegState) (sid : String) (a : Nat) :
      Reachable st →
      (lookupA sid st.active_sessions).isSome →
      (st.mons a).logRaises = false →
      Reachable (register_monitor sid a st)
  | stopMon (st : RegState) (sid : String) :
      Reachable st → Reachable (stop_monitor sid st).1
  | unreg (st : RegState) (sid : String) :
      Reachable st → Reachable (unregister_session sid st)
  | shutdown (st : RegState) :
      Reachable st → Reachable (shutdown_all st).1

/-- The data-model invariant under scrutiny: a registered session's
monitoring flag is true exactly when a monitor is registered for its id. -/
def monitoringFlagInv (st : RegState) : Prop :=
  ∀ sid a, lookupA sid st.active_sessions = some a →
    ((st.metas a).monitoring = true ↔
      (lookupA sid st.active_monitors).isSome = true)

/-- Auxiliary well-formedness of reachable states: registered monitors have
working loggers, metadata references are unaliased, dict keys are unique, and
monitors only exist for registered sessions. -/
def registryWF (st : RegState) : Prop :=
  monitoringFlagInv st ∧
  (∀ p ∈ st.active_monitors, (st.mons p.2).logRaises = false) ∧
  (st.active_sessions.map Prod.snd).Nodup ∧
  (st.active_sessions.map Prod.fst).Nodup ∧
  (st.active_monitors.map Prod.fst).Nodup ∧
  (∀ sid, (lookupA sid st.active_monitors).isSome →
    (lookupA sid st.active_sessions).isSome)

/-! Auxiliary lemmas about the embedded operations. -/

theorem insertA_of_absent {α : Type} {k : String} (v : α)
    {l : List (String × α)} (h : lookupA k l = none) :
    insertA k v l = l ++ [(k, v)] := by
  induction l with
  | nil => rfl
  | cons p rest ih =>
      obtain ⟨k', v'⟩ := p
      by_cases hk : k' = k
      · simp [lookupA, hk] at h
      · simp [lookupA, hk] at h
        simp [insertA, hk, ih h]

theorem lookupA_append {α : Type} (k : String) (l1 l2 : List (String × α)) :
    lookupA k (l1 ++ l2) =
      match lookupA k l1 with
      | some v => some v
      | none => lookupA k l2 := by
  induction l1 with
  | nil => simp [lookupA]
  | cons p rest ih =>
      obtain ⟨k', v⟩ := p
      by_cases h : k' = k <;> simp [lookupA, h, ih]

theorem snd_ne_of_nodup_snd {α : Type} {l : List (String × α)}
    (hnd : (l.map Prod.snd).Nodup) {p q : String × α}
    (hp : p ∈ l) (hq : q ∈ l) (hne : p.1 ≠ q.1) : p.2 ≠ q.2 := by
  intro he
  exact hne (congrArg Prod.fst (List.inj_on_of_nodup_map hnd hp hq he))

theorem SystemMonitor.stop_ok_monitoring {m m1 : SystemMonitor}
    {lines : List String} (h : m.stop = .ok (m1, lines)) :
    m1.monitoring = false ∨ m1 = m := by
  unfold SystemMonitor.stop at h
  cases h1 : m.monitoring with
  | false =>
      simp only [h1, Bool.false_eq_true, if_false, Except.ok.injEq,
        Prod.mk.injEq] at h
      exact Or.inr h.1.symm
  | true =>
      cases h2 : m.hasThread with
      | false =>
          simp only [h1, h2, if_true, Bool.false_eq_true, if_false,
            Except.ok.injEq, Prod.mk.injEq] at h
          left
          rw [← h.1]
      | true =>
          cases h3 : m.logRaises with
          | true =>
              simp only [h1, h2, h3, if_true] at h
              exact Except.noConfusion h
          | false =>
              simp only [h1, h2, h3, if_true, Bool.false_eq_true, if_false,
                Except.ok.injEq, Prod.mk.injEq] at h
              left
              rw [← h.1]

theorem SystemMonitor.stop_ok_monitoring_false {m m1 : SystemMonitor}
    {lines : List String} (h : m.stop = .ok (m1, lines)) :
    m1.monitoring = false ∨ (m1 = m ∧ m.monitoring = false) := by
  rcases SystemMonitor.stop_ok_monitoring h with h1 | h1
  · exact Or.inl h1
  · cases h2 : m.monitoring with
    | false => exact Or.inr ⟨h1, rfl⟩
    | true =>
        unfold SystemMonitor.stop at h
        cases h3 : m.hasThread with
        | false =>
            simp only [h2, h3, if_true, Bool.false_eq_true, if_false,
              Except.ok.injEq, Prod.mk.injEq] at h
            left
            rw [← h.1]
        | true =>
            cases h4 : m.logRaises with
            | true =>
                simp only [h2, h3, h4, if_true] at h
                exact Except.noConfusion h
            | false =>
                simp only [h2, h3, h4, if_true, Bool.false_eq_true, if_false,
                  Except.ok.injEq, Prod.mk.injEq] at h
                left
                rw [← h.1]

theorem SystemMonitor.stop_ok_logRaises {m m1 : SystemMonitor}
    {lines : List String} (h : m.stop = .ok (m1, lines)) :
    m1.logRaises = m.logRaises := by
  rcases SystemMonitor.stop_ok_monitoring h with h1 | h1
  · unfold SystemMonitor.stop at h
    cases h2 : m.monitoring with
    | false =>
        simp only [h2, Bool.false_eq_true, if_false, Except.ok.injEq,
          Prod.mk.injEq] at h
        rw [← h.1]
    | true =>
        cases h3 : m.hasThread with
        | false =>
            simp only [h2, h3, if_true, Bool.false_eq_true, if_false,
              Except.ok.injEq, Prod.mk.injEq] at h
            rw [← h.1]
        | true =>
            cases h4 : m.logRaises with
            | true =>
                simp only [h2, h3, h4, if_true] at h
                exact Except.noConfusion h
            | false =>
                simp only [h2, h3, h4, if_true, Bool.false_eq_true, if_false,
                  Except.ok.injEq, Prod.mk.injEq] at h
                rw [← h.1]
  · rw [h1]

theorem SystemMonitor.stop_error_raises {m m1 : SystemMonitor}
    (h : m.stop = .error m1) :
    m.stopRaises ∧ m1 = { m with monitoring := false, hasThread := false } := by
  unfold SystemMonitor.stop at h
  cases h1 : m.monitoring with
  | false =>
      simp only [h1, Bool.false_eq_true, if_false] at h
      exact Except.noConfusion h
  | true =>
      cases h2 : m.hasThread with
      | false =>
          simp only [h1, h2, if_true, Bool.false_eq_true, if_false] at h
          exact Except.noConfusion h
      | true =>
          cases h3 : m.logRaises with
          | false =>
              simp only [h1, h2, h3, if_true, Bool.false_eq_true, if_false]
                at h
              exact Except.noConfusion h
          | true =>
              simp only [h1, h2, h3, if_true, Except.error.injEq] at h
              exact ⟨⟨h1, h2, h3⟩, h.symm⟩

theorem SystemMonitor.stop_raises_error {m : SystemMonitor}
    (h : m.stopRaises) :
    m.stop = .error { m with monitoring := false, hasThread := false } := by
  obtain ⟨h1, h2, h3⟩ := h
  unfold SystemMonitor.stop
  simp only [h1, h2, h3, if_true]

theorem SystemMonitor.stop_ok_of_not_raises {m : SystemMonitor}
    (h : ¬m.stopRaises) :
    ∃ m1 lines, m.stop = Except.ok (m1, lines) := by
  cases hstop : m.stop with
  | error m1 => exact absurd (SystemMonitor.stop_error_raises hstop).1 h
  | ok p => exact ⟨p.1, p.2, rfl⟩

theorem setMonitoringFlag_sessions (st : RegState) (sid : String) (b : Bool) :
    (setMonitoringFlag st sid b).active_sessions = st.active_sessions := by
  unfold setMonitoringFlag
  cases lookupA sid st.active_sessions <;> rfl

theorem setMonitoringFlag_monitors (st : RegState) (sid : String) (b : Bool) :
    (setMonitoringFlag st sid b).active_monitors = st.active_monitors := by
  unfold setMonitoringFlag
  cases lookupA sid st.active_sessions <;> rfl

theorem setMonitoringFlag_mons (st : RegState) (sid : String) (b : Bool) :
    (setMonitoringFlag st sid b).mons = st.mons := by
  unfold setMonitoringFlag
  cases lookupA sid st.active_sessions <;> rfl

theorem setMonitoringFlag_logFiles (st : RegState) (sid : String) (b : Bool) :
    (setMonitoringFlag st sid b).logFiles = st.logFiles := by
  unfold setMonitoringFlag
  cases lookupA sid st.active_sessions <;> rfl

theorem setMonitoringFlag_logLines (st : RegState) (sid : String) (b : Bool) :
    (setMonitoringFlag st sid b).logLines = st.logLines := by
  unfold setMonitoringFlag
  cases lookupA sid st.active_sessions <;> rfl

theorem setMonitoringFlag_metas_self {st : RegState} {sid : String} {a : Nat}
    (h : lookupA sid st.active_sessions = some a) (b : Bool) :
    (setMonitoringFlag st sid b).metas a =
      { st.metas a with monitoring := b } := by
  unfold setMonitoringFlag
  rw [h]
  simp

theorem setMonitoringFlag_metas_ne {st : RegState} {sid : String} {a : Nat}
    (h : lookupA sid st.active_sessions = some a) (b : Bool)
    {n : Nat} (hne : n ≠ a) :
    (setMonitoringFlag st sid b).metas n = st.metas n := by
  unfold setMonitoringFlag
  rw [h]
  simp [hne]

theorem setMonitoringFlag_of_none {st : RegState} {sid : String}
    (h : lookupA sid st.active_sessions = none) (b : Bool) :
    setMonitoringFlag st sid b = st := by
  unfold setMonitoringFlag
  rw [h]

theorem stop_monitor_of_none {st : RegState} {sid : String}
    (h : lookupA sid st.active_monitors = none) :
    stop_monitor sid st = (st, false) := by
  unfold stop_monitor
  rw [h]

theorem stop_monitor_raises_eq {st : RegState} {sid : String} {a : Nat}
    (h : lookupA sid st.active_monitors = some a)
    (hr : (st.mons a).stopRaises) :
    stop_monitor sid st =
      ({ st with
           mons := fun n =>
             if n = a then
               { st.mons a with monitoring := false, hasThread := false }
             else st.mons n,
           logLines := st.logLines ++
             ["Error stopping monitor for session " ++ sid] },
       false) := by
  unfold stop_monitor
  rw [h]
  dsimp only
  rw [SystemMonitor.stop_raises_error hr]

theorem stop_monitor_ok_eq {st : RegState} {sid : String} {a : Nat}
    {m1 : SystemMonitor} {lines : List String}
    (h : lookupA sid st.active_monitors = some a)
    (hstop : (st.mons a).stop = .ok (m1, lines)) :
    stop_monitor sid st =
      (let stM : RegState :=
        { st with
            mons := fun n => if n = a then m1 else st.mons n,
            active_monitors := eraseA sid st.active_monitors,
            logLines := st.logLines ++ lines }
       let stF := setMonitoringFlag stM sid false
       ({ stF with
            logLines := stF.logLines ++
              ["Stopped monitor for session: " ++ sid] },
        true)) := by
  unfold stop_monitor
  rw [h]
  dsimp only
  rw [hstop]

theorem stop_monitor_sessions (sid : String) (st : RegState) :
    ((stop_monitor sid st).1).active_sessions = st.active_sessions := by
  cases hl : lookupA sid st.active_monitors with
  | none => rw [stop_monitor_of_none hl]
  | some a =>
      cases hstop : (st.mons a).stop with
      | error m1 =>
          obtain ⟨hr, hm1⟩ := SystemMonitor.stop_error_raises hstop
          rw [stop_monitor_raises_eq hl hr]
      | ok p =>
          obtain ⟨m1, lines⟩ := p
          rw [stop_monitor_ok_eq hl hstop]
          simp [setMonitoringFlag_sessions]

theorem stop_monitor_logFiles (sid : String) (st : RegState) :
    ((stop_monitor sid st).1).logFiles = st.logFiles := by
  cases hl : lookupA sid st.active_monitors with
  | none => rw [stop_monitor_of_none hl]
  | some a =>
      cases hstop : (st.mons a).stop with
      | error m1 =>
          obtain ⟨hr, hm1⟩ := SystemMonitor.stop_error_raises hstop
          rw [stop_monitor_raises_eq hl hr]
      | ok p =>
          obtain ⟨m1, lines⟩ := p
          rw [stop_monitor_ok_eq hl hstop]
          simp [setMonitoringFlag_logFiles]

theorem stop_monitor_ok_snd {st : RegState} {sid : String} {a : Nat}
    {m1 : SystemMonitor} {lines : List String}
    (h : lookupA sid st.active_monitors = some a)
    (hstop : (st.mons a).stop = .ok (m1, lines)) :
    (stop_monitor sid st).2 = true := by
  rw [stop_monitor_ok_eq h hstop]

theorem stop_monitor_ok_monitors {st : RegState} {sid : String} {a : Nat}
    {m1 : SystemMonitor} {lines : List String}
    (h : lookupA sid st.active_monitors = some a)
    (hstop : (st.mons a).stop = .ok (m1, lines)) :
    ((stop_monitor sid st).1).active_monitors =
      eraseA sid st.active_monitors := by
  rw [stop_monitor_ok_eq h hstop]
  simp [setMonitoringFlag_monitors]

theorem stop_monitor_ok_mons {st : RegState} {sid : String} {a : Nat}
    {m1 : SystemMonitor} {lines : List String}
    (h : lookupA sid st.active_monitors = some a)
    (hstop : (st.mons a).stop = .ok (m1, lines)) (n : Nat) :
    ((stop_monitor sid st).1).mons n = if n = a then m1 else st.mons n := by
  rw [stop_monitor_ok_eq h hstop]
  simp [setMonitoringFlag_mons]

theorem stop_monitor_ok_metas_none {st : RegState} {sid : String} {a : Nat}
    {m1 : SystemMonitor} {lines : List String}
    (h : lookupA sid st.active_monitors = some a)
    (hstop : (st.mons a).stop = .ok (m1, lines))
    (hs : lookupA sid st.active_sessions = none) :
    ((stop_monitor sid st).1).metas = st.metas := by
  rw [stop_monitor_ok_eq h hstop]
  dsimp only
  rw [setMonitoringFlag_of_none (by simpa using hs)]

theorem stop_monitor_ok_metas_self {st : RegState} {sid : String} {a : Nat}
    {m1 : SystemMonitor} {lines : List String}
    (h : lookupA sid st.active_monitors = some a)
    (hstop : (st.mons a).stop = .ok (m1, lines))
    {sa : Nat} (hs : lookupA sid st.active_sessions = some sa) :
    ((stop_monitor sid st).1).metas sa =
      { st.metas sa with monitoring := false } := by
  rw [stop_monitor_ok_eq h hstop]
  dsimp only
  rw [setMonitoringFlag_metas_self (by simpa using hs)]

theorem stop_monitor_ok_metas_ne {st : RegState} {sid : String} {a : Nat}
    {m1 : SystemMonitor} {lines : List String}
    (h : lookupA sid st.active_monitors = some a)
    (hstop : (st.mons a).stop = .ok (m1, lines))
    {sa : Nat} (hs : lookupA sid st.active_sessions = some sa)
    {n : Nat} (hne : n ≠ sa) :
    ((stop_monitor sid st).1).metas n = st.metas n := by
  rw [stop_monitor_ok_eq h hstop]
  dsimp only
  rw [setMonitoringFlag_metas_ne (by simpa using hs) false hne]

theorem stop_monitor_mons_monitoring_false {st : RegState} {sid : String}
    {a : Nat} (h : lookupA sid st.active_monitors = some a) :
    (((stop_monitor sid st).1).mons a).monitoring = false := by
  cases hstop : (st.mons a).stop with
  | error m1 =>
      obtain ⟨hr, hm1⟩ := SystemMonitor.stop_error_raises hstop
      rw [stop_monitor_raises_eq h hr]
      simp
  | ok p =>
      obtain ⟨m1, lines⟩ := p
      rw [stop_monitor_ok_mons h hstop]
      simp only [if_pos rfl]
      rcases SystemMonitor.stop_ok_monitoring_false hstop with h1 | h1
      · exact h1
      · rw [h1.1]
        exact h1.2

theorem stop_monitor_mons_preserves_stopped {st : RegState} (sid : String)
    {n : Nat} (h : (st.mons n).monitoring = false) :
    (((stop_monitor sid st).1).mons n).monitoring = false := by
  cases hl : lookupA sid st.active_monitors with
  | none => rw [stop_monitor_of_none hl]; exact h
  | some a =>
      by_cases hn : n = a
      · subst hn
        exact stop_monitor_mons_monitoring_false hl
      · cases hstop : (st.mons a).stop with
        | error m1 =>
            obtain ⟨hr, hm1⟩ := SystemMonitor.stop_error_raises hstop
            rw [stop_monitor_raises_eq hl hr]
            simp [hn, h]
        | ok p =>
            obtain ⟨m1, lines⟩ := p
            rw [stop_monitor_ok_mons hl hstop]
            simp [hn, h]

theorem stop_monitor_mons_logRaises (sid : String) (st : RegState)
    (n : Nat) :
    (((stop_monitor sid st).1).mons n).logRaises =
      (st.mons n).logRaises := by
  cases hl : lookupA sid st.active_monitors with
  | none => rw [stop_monitor_of_none hl]
  | some a =>
      by_cases hn : n = a
      · subst hn
        cases hstop : (st.mons n).stop with
        | error m1 =>
            obtain ⟨hr, hm1⟩ := SystemMonitor.stop_error_raises hstop
            rw [stop_monitor_raises_eq hl hr]
            simp
        | ok p =>
            obtain ⟨m1, lines⟩ := p
            rw [stop_monitor_ok_mons hl hstop]
            simp only [if_pos rfl]
            exact SystemMonitor.stop_ok_logRaises hstop
      · cases hstop : (st.mons a).stop with
        | error m1 =>
            obtain ⟨hr, hm1⟩ := SystemMonitor.stop_error_raises hstop
            rw [stop_monitor_raises_eq hl hr]
            simp [hn]
        | ok p =>
            obtain ⟨m1, lines⟩ := p
            rw [stop_monitor_ok_mons hl hstop]
            simp [hn]

theorem stop_monitor_monitors_lookup_ne {st : RegState} {sid sid' : String}
    (hne : sid' ≠ sid) :
    lookupA sid' ((stop_monitor sid st).1).active_monitors =
      lookupA sid' st.active_monitors := by
  cases hl : lookupA sid st.active_monitors with
  | none => rw [stop_monitor_of_none hl]
  | some a =>
      cases hstop : (st.mons a).stop with
      | error m1 =>
          obtain ⟨hr, hm1⟩ := SystemMonitor.stop_error_raises hstop
          rw [stop_monitor_raises_eq hl hr]
      | ok p =>
          obtain ⟨m1, lines⟩ := p
          rw [stop_monitor_ok_monitors hl hstop]
          exact lookupA_eraseA_ne sid sid' st.active_monitors hne

theorem register_session_sessions (sid : String) (a : Nat) (st : RegState) :
    (register_session sid a st).active_sessions =
      insertA sid a st.active_sessions := rfl

theorem register_session_monitors (sid : String) (a : Nat) (st : RegState) :
    (register_session sid a st).active_monitors = st.active_monitors := rfl

theorem register_session_metas (sid : String) (a : Nat) (st : RegState) :
    (register_session sid a st).metas = st.metas := rfl

theorem register_session_mons (sid : String) (a : Nat) (st : RegState) :
    (register_session sid a st).mons = st.mons := rfl

theorem register_monitor_sessions (sid : String) (a : Nat) (st : RegState) :
    (register_monitor sid a st).active_sessions = st.active_sessions := by
  simp [register_monitor, setMonitoringFlag_sessions]

theorem register_monitor_monitors (sid : String) (a : Nat) (st : RegState) :
    (register_monitor sid a st).active_monitors =
      insertA sid a st.active_monitors := by
  simp [register_monitor, setMonitoringFlag_monitors]

theorem register_monitor_mons (sid : String) (a : Nat) (st : RegState) :
    (register_monitor sid a st).mons = st.mons := by
  simp [register_monitor, setMonitoringFlag_mons]

theorem register_monitor_metas_self {st : RegState} {sid : String} {sa : Nat}
    (h : lookupA sid st.active_sessions = some sa) (a : Nat) :
    (register_monitor sid a st).metas sa =
      { st.metas sa with monitoring := true } := by
  unfold register_monitor
  dsimp only
  exact @setMonitoringFlag_metas_self
    { st with active_monitors := insertA sid a st.active_monitors }
    sid sa h true

theorem register_monitor_metas_ne {st : RegState} {sid : String} {sa : Nat}
    (h : lookupA sid st.active_sessions = some sa) (a : Nat)
    {n : Nat} (hne : n ≠ sa) :
    (register_monitor sid a st).metas n = st.metas n := by
  unfold register_monitor
  dsimp only
  exact @setMonitoringFlag_metas_ne
    { st with active_monitors := insertA sid a st.active_monitors }
    sid sa h true n hne

theorem registryWF_register_session {st : RegState} {sid : String} {a : Nat}
    (hWF : registryWF st)
    (h1 : lookupA sid st.active_sessions = none)
    (h2 : (st.metas a).monitoring = false)
    (h3 : a ∉ st.active_sessions.map Prod.snd) :
    registryWF (register_session sid a st) := by
  obtain ⟨hFlag, hRaise, hSnd, hFst, hMonNd, hSub⟩ := hWF
  have hsess : (register_session sid a st).active_sessions =
      st.active_sessions ++ [(sid, a)] := by
    rw [register_session_sessions, insertA_of_absent a h1]
  have hmonNone : lookupA sid st.active_monitors = none := by
    cases hm : lookupA sid st.active_monitors with
    | none => rfl
    | some v =>
        have := hSub sid (by rw [hm]; rfl)
        rw [h1] at this
        exact absurd this (by simp)
  refine ⟨?_, ?_, ?_, ?_, ?_, ?_⟩
  · intro sid' a' hlk
    rw [hsess, lookupA_append] at hlk
    rw [register_session_metas, register_session_monitors]
    cases hcase : lookupA sid' st.active_sessions with
    | some v =>
        rw [hcase] at hlk
        have hv : a' = v := by simpa using hlk.symm
        subst hv
        exact hFlag sid' _ hcase
    | none =>
        rw [hcase] at hlk
        by_cases he : sid = sid'
        · subst he
          have hv : a' = a := by simpa [lookupA] using hlk.symm
          subst hv
          rw [h2, hmonNone]
          simp
        · simp [lookupA, he] at hlk
  · intro p hp
    rw [register_session_monitors] at hp
    rw [register_session_mons]
    exact hRaise p hp
  · rw [hsess]
    simp only [List.map_append, List.map_cons, List.map_nil]
    rw [List.nodup_append]
    refine ⟨hSnd, List.nodup_singleton a, ?_⟩
    intro x hx hx2
    simp only [List.mem_singleton] at hx2
    subst hx2
    exact h3 hx
  · rw [hsess]
    simp only [List.map_append, List.map_cons, List.map_nil]
    rw [List.nodup_append]
    refine ⟨hFst, List.nodup_singleton sid, ?_⟩
    intro x hx hx2
    simp only [List.mem_singleton] at hx2
    subst hx2
    exact (lookupA_eq_none_iff _ st.active_sessions).mp h1 hx
  · rw [register_session_monitors]
    exact hMonNd
  · intro sid' hm
    rw [register_session_monitors] at hm
    rw [hsess, lookupA_append]
    cases hc : lookupA sid' st.active_sessions with
    | some v => simp
    | none =>
        have := hSub sid' hm
        rw [hc] at this
        exact absurd this (by simp)

theorem registryWF_register_monitor {st : RegState} {sid : String} {a : Nat}
    (hWF : registryWF st)
    (hS : (lookupA sid st.active_sessions).isSome)
    (hR : (st.mons a).logRaises = false) :
    registryWF (register_monitor sid a st) := by
  obtain ⟨hFlag, hRaise, hSnd, hFst, hMonNd, hSub⟩ := hWF
  obtain ⟨sa, hsa⟩ := Option.isSome_iff_exists.mp hS
  refine ⟨?_, ?_, ?_, ?_, ?_, ?_⟩
  · intro sid' a' hlk
    rw [register_monitor_sessions] at hlk
    by_cases he : sid' = sid
    · subst he
      have hv : a' = sa := (Option.some.inj (hsa.symm.trans hlk)).symm
      subst hv
      rw [register_monitor_metas_self hsa a]
      rw [register_monitor_monitors, lookupA_insertA_self]
      simp
    · rw [register_monitor_monitors, lookupA_insertA_ne _ _ _ _ he]
      have hane : a' ≠ sa :=
        snd_ne_of_nodup_snd hSnd (mem_of_lookupA_eq_some hlk)
          (mem_of_lookupA_eq_some hsa) he
      rw [register_monitor_metas_ne hsa a hane]
      exact hFlag sid' a' hlk
  · intro p hp
    rw [register_monitor_monitors] at hp
    rw [register_monitor_mons]
    rcases mem_insertA hp with h | h
    · rw [h]
      exact hR
    · exact hRaise p h
  · rw [register_monitor_sessions]
    exact hSnd
  · rw [register_monitor_sessions]
    exact hFst
  · rw [register_monitor_monitors, map_fst_insertA]
    cases hc : (lookupA sid st.active_monitors).isSome with
    | true => simpa [hc] using hMonNd
    | false =>
        have hnone : lookupA sid st.active_monitors = none :=
          Option.not_isSome_iff_eq_none.mp (by rw [hc]; simp)
        simp only [hc, Bool.false_eq_true, if_false]
        rw [List.nodup_append]
        refine ⟨hMonNd, List.nodup_singleton sid, ?_⟩
        intro x hx hx2
        simp only [List.mem_singleton] at hx2
        subst hx2
        exact (lookupA_eq_none_iff _ st.active_monitors).mp hnone hx
  · intro sid' hm
    rw [register_monitor_monitors] at hm
    rw [register_monitor_sessions]
    by_cases he : sid' = sid
    · subst he
      rw [hsa]
      rfl
    · rw [lookupA_insertA_ne _ _ _ _ he] at hm
      exact hSub sid' hm

theorem registryWF_stop_monitor {st : RegState} (sid : String)
    (hWF : registryWF st) : registryWF (stop_monitor sid st).1 := by
  obtain ⟨hFlag, hRaise, hSnd, hFst, hMonNd, hSub⟩ := hWF
  cases hl : lookupA sid st.active_monitors with
  | none =>
      rw [stop_monitor_of_none hl]
      exact ⟨hFlag, hRaise, hSnd, hFst, hMonNd, hSub⟩
  | some a =>
      have hRa : (st.mons a).logRaises = false :=
        hRaise (sid, a) (mem_of_lookupA_eq_some hl)
      have hnr : ¬(st.mons a).stopRaises := by
        intro hr
        exact Bool.false_ne_true (hRa ▸ hr.2.2)
      obtain ⟨m1, lines, hstop⟩ := SystemMonitor.stop_ok_of_not_raises hnr
      refine ⟨?_, ?_, ?_, ?_, ?_, ?_⟩
      · intro sid' a' hlk
        rw [stop_monitor_sessions] at hlk
        by_cases he : sid' = sid
        · subst he
          rw [stop_monitor_ok_monitors hl hstop, lookupA_eraseA_self]
          rw [stop_monitor_ok_metas_self hl hstop hlk]
          simp
        · rw [stop_monitor_ok_monitors hl hstop,
            lookupA_eraseA_ne _ _ _ he]
          cases hs : lookupA sid st.active_sessions with
          | none =>
              rw [stop_monitor_ok_metas_none hl hstop hs]
              exact hFlag sid' a' hlk
          | some sa =>
              have hane : a' ≠ sa :=
                snd_ne_of_nodup_snd hSnd (mem_of_lookupA_eq_some hlk)
                  (mem_of_lookupA_eq_some hs) he
              rw [stop_monitor_ok_metas_ne hl hstop hs hane]
              exact hFlag sid' a' hlk
      · intro p hp
        rw [stop_monitor_ok_monitors hl hstop] at hp
        rw [stop_monitor_mons_logRaises]
        exact hRaise p (mem_eraseA hp)
      · rw [stop_monitor_sessions]
        exact hSnd
      · rw [stop_monitor_sessions]
        exact hFst
      · rw [stop_monitor_ok_monitors hl hstop]
        exact List.Nodup.sublist
          ((eraseA_sublist sid st.active_monitors).map Prod.fst) hMonNd
      · intro sid' hm
        rw [stop_monitor_ok_monitors hl hstop] at hm
        rw [stop_monitor_sessions]
        by_cases he : sid' = sid
        · subst he
          rw [lookupA_eraseA_self] at hm
          exact absurd hm (by simp)
        · rw [lookupA_eraseA_ne _ _ _ he] at hm
          exact hSub sid' hm

theorem stop_monitor_self_lookup_none {st : RegState} (sid : String)
    (hWF : registryWF st) :
    lookupA sid ((stop_monitor sid st).1).active_monitors = none := by
  cases hl : lookupA sid st.active_monitors with
  | none =>
      rw [stop_monitor_of_none hl]
      exact hl
  | some a =>
      have hRa : (st.mons a).logRaises = false :=
        hWF.2.1 (sid, a) (mem_of_lookupA_eq_some hl)
      have hnr : ¬(st.mons a).stopRaises := by
        intro hr
        exact Bool.false_ne_true (hRa ▸ hr.2.2)
      obtain ⟨m1, lines, hstop⟩ := SystemMonitor.stop_ok_of_not_raises hnr
      rw [stop_monitor_ok_monitors hl hstop, lookupA_eraseA_self]

theorem unregister_session_of_present {st : RegState} {sid : String}
    (hs : (lookupA sid ((stop_monitor sid st).1).active_sessions).isSome) :
    unregister_session sid st =
      { (stop_monitor sid st).1 with
          active_sessions :=
            eraseA sid ((stop_monitor sid st).1).active_sessions,
          logLines := ((stop_monitor sid st).1).logLines ++
            ["Unregistered session: " ++ sid] } := by
  unfold unregister_session
  rw [if_pos hs]

theorem unregister_session_of_absent {st : RegState} {sid : String}
    (hs : ¬(lookupA sid ((stop_monitor sid st).1).active_sessions).isSome) :
    unregister_session sid st = (stop_monitor sid st).1 := by
  unfold unregister_session
  rw [if_neg hs]

theorem registryWF_unregister {st : RegState} (sid : String)
    (hWF : registryWF st) : registryWF (unregister_session sid st) := by
  have hWF1 := registryWF_stop_monitor sid hWF
  have hnone := stop_monitor_self_lookup_none sid hWF
  obtain ⟨hFlag1, hRaise1, hSnd1, hFst1, hMonNd1, hSub1⟩ := hWF1
  by_cases hs :
      (lookupA sid ((stop_monitor sid st).1).active_sessions).isSome
  · rw [unregister_session_of_present hs]
    refine ⟨?_, ?_, ?_, ?_, ?_, ?_⟩
    · intro sid' a' hlk
      dsimp only at hlk ⊢
      have he : sid' ≠ sid := by
        intro h
        subst h
        rw [lookupA_eraseA_self] at hlk
        exact Option.noConfusion hlk
      rw [lookupA_eraseA_ne _ _ _ he] at hlk
      exact hFlag1 sid' a' hlk
    · intro p hp
      dsimp only at hp ⊢
      exact hRaise1 p hp
    · dsimp only
      exact List.Nodup.sublist
        ((eraseA_sublist sid _).map Prod.snd) hSnd1
    · dsimp only
      exact List.Nodup.sublist
        ((eraseA_sublist sid _).map Prod.fst) hFst1
    · dsimp only
      exact hMonNd1
    · intro sid' hm
      dsimp only at hm ⊢
      by_cases he : sid' = sid
      · subst he
        rw [hnone] at hm
        exact absurd hm (by simp)
      · rw [lookupA_eraseA_ne _ _ _ he]
        exact hSub1 sid' hm
  · rw [unregister_session_of_absent hs]
    exact ⟨hFlag1, hRaise1, hSnd1, hFst1, hMonNd1, hSub1⟩

theorem shutdown_all_sessions (st : RegState) :
    ((shutdown_all st).1).active_sessions = [] := rfl

theorem shutdown_all_monitors (st : RegState) :
    ((shutdown_all st).1).active_monitors = [] := rfl

theorem shutdown_all_logFiles (st : RegState) :
    ((shutdown_all st).1).logFiles = [] := rfl

theorem registryWF_shutdown (st : RegState) :
    registryWF (shutdown_all st).1 := by
  refine ⟨?_, ?_, ?_, ?_, ?_, ?_⟩
  · intro sid a hlk
    rw [shutdown_all_sessions] at hlk
    exact Option.noConfusion hlk
  · intro p hp
    rw [shutdown_all_monitors] at hp
    exact absurd hp (List.not_mem_nil p)
  · rw [shutdown_all_sessions]
    simp
  · rw [shutdown_all_sessions]
    simp
  · rw [shutdown_all_monitors]
    simp
  · intro sid hm
    rw [shutdown_all_monitors] at hm
    exact absurd hm (by simp [lookupA])

theorem registryWF_initial : registryWF initialRegState := by
  refine ⟨?_, ?_, ?_, ?_, ?_, ?_⟩
  · intro sid a hlk
    exact Option.noConfusion hlk
  · intro p hp
    exact absurd hp (List.not_mem_nil p)
  · simp [initialRegState]
  · simp [initialRegState]
  · simp [initialRegState]
  · intro sid hm
    exact absurd hm (by simp [initialRegState, lookupA])

theorem reachable_registryWF {st : RegState} (h : Reachable st) :
    registryWF st := by
  induction h with
  | init => exact registryWF_initial
  | regSession st sid a hr h1 h2 h3 ih =>
      exact registryWF_register_session ih h1 h2 h3
  | regMonitor st sid a hr hS hR ih =>
      exact registryWF_register_monitor ih hS hR
  | stopMon st sid hr ih => exact registryWF_stop_monitor sid ih
  | unreg st sid hr ih => exact registryWF_unregister sid ih
  | shutdown st hr ih => exact registryWF_shutdown st

theorem stopAllMonitors_sessions (ids : List String) (st : RegState) :
    ((stopAllMonitors ids st).1).active_sessions = st.active_sessions := by
  induction ids generalizing st with
  | nil => rfl
  | cons sid rest ih =>
      simp only [stopAllMonitors]
      rw [ih, stop_monitor_sessions]

theorem stopAllMonitors_logFiles (ids : List String) (st : RegState) :
    ((stopAllMonitors ids st).1).logFiles = st.logFiles := by
  induction ids generalizing st with
  | nil => rfl
  | cons sid rest ih =>
      simp only [stopAllMonitors]
      rw [ih, stop_monitor_logFiles]

theorem stopAllMonitors_preserves_stopped (ids : List String)
    {st : RegState} {n : Nat} (h : (st.mons n).monitoring = false) :
    (((stopAllMonitors ids st).1).mons n).monitoring = false := by
  induction ids generalizing st with
  | nil => exact h
  | cons sid rest ih =>
      simp only [stopAllMonitors]
      exact ih (stop_monitor_mons_preserves_stopped sid h)

theorem stopAllMonitors_stops {ids : List String} (hnd : ids.Nodup) :
    ∀ {st : RegState} {sid : String} {a : Nat}, sid ∈ ids →
      lookupA sid st.active_monitors = some a →
      (((stopAllMonitors ids st).1).mons a).monitoring = false := by
  induction ids with
  | nil =>
      intro st sid a hmem
      exact absurd hmem (List.not_mem_nil sid)
  | cons sid0 rest ih =>
      intro st sid a hmem hl
      simp only [List.nodup_cons] at hnd
      simp only [stopAllMonitors]
      rcases List.mem_cons.mp hmem with he | he
      · subst he
        exact stopAllMonitors_preserves_stopped rest
          (stop_monitor_mons_monitoring_false hl)
      · have hne : sid ≠ sid0 := by
          intro h
          subst h
          exact hnd.1 he
        have hl1 : lookupA sid ((stop_monitor sid0 st).1).active_monitors =
            some a := by
          rw [stop_monitor_monitors_lookup_ne hne]
          exact hl
        exact ih hnd.2 he hl1

theorem shutdown_all_mons (st : RegState) :
    ((shutdown_all st).1).mons =
      ((stopAllMonitors (st.active_monitors.map Prod.fst) st).1).mons := rfl

theorem shutdown_all_sessions_cleared (st : RegState) :
    ((shutdown_all st).2).sessions_cleared = st.active_sessions.length := rfl

theorem shutdown_all_logs_deleted (st : RegState) :
    ((shutdown_all st).2).logs_deleted = st.logFiles.length := by
  unfold shutdown_all clear_all_logs
  dsimp only
  rw [stopAllMonitors_logFiles]

theorem streamLoop_exit {it : StreamIter} (h : it.exitFlag = true)
    (tout la : ℚ) (rest : List StreamIter) :
    streamLoop tout la (it :: rest) = ([], .shutdownEnd) := by
  simp [streamLoop, h]

theorem streamLoop_line {it : StreamIter} {s : String}
    (hexit : it.exitFlag = false) (hread : it.read = .line s)
    (tout la : ℚ) (rest : List StreamIter) :
    streamLoop tout la (it :: rest) =
      (Frame.content s :: (streamLoop tout it.now rest).1,
       (streamLoop tout it.now rest).2) := by
  simp [streamLoop, hexit, hread]

theorem streamLoop_eof_timeout {it : StreamIter}
    (hexit : it.exitFlag = false) (hread : it.read = .eof)
    {tout la : ℚ} (ht : tout < it.now - la) (rest : List StreamIter) :
    streamLoop tout la (it :: rest) = ([.idleTimeout], .timeoutEnd) := by
  simp [streamLoop, hexit, hread, ht]

theorem streamLoop_eof_continue {it : StreamIter}
    (hexit : it.exitFlag = false) (hread : it.read = .eof)
    {tout la : ℚ} (ht : ¬tout < it.now - la) (rest : List StreamIter) :
    streamLoop tout la (it :: rest) = streamLoop tout la rest := by
  simp [streamLoop, hexit, hread, ht]

theorem streamLoop_fault {it : StreamIter} {msg : String}
    (hexit : it.exitFlag = false) (hread : it.read = .fault msg)
    (tout la : ℚ) (rest : List StreamIter) :
    streamLoop tout la (it :: rest) =
      ([.errorInternal ("Error reading log file: " ++ msg)],
       .internalEnd) := by
  simp [streamLoop, hexit, hread]

theorem streamLoop_classify (tout : ℚ) (script : List StreamIter) :
    ∀ la : ℚ,
    ((streamLoop tout la script).2 = .timeoutEnd →
      ∃ cs, (∀ f ∈ cs, f.isContent = true) ∧
        (streamLoop tout la script).1 = cs ++ [Frame.idleTimeout]) ∧
    ((streamLoop tout la script).2 ≠ .notFoundEnd) ∧
    ((streamLoop tout la script).2 = .internalEnd →
      ∃ cs s, (∀ f ∈ cs, f.isContent = true) ∧
        (streamLoop tout la script).1 = cs ++ [Frame.errorInternal s]) ∧
    ((streamLoop tout la script).2 = .shutdownEnd →
      ∀ f ∈ (streamLoop tout la script).1, f.isContent = true) := by
  induction script with
  | nil =>
      intro la
      refine ⟨?_, ?_, ?_, ?_⟩ <;> simp [streamLoop]
  | cons it rest ih =>
      intro la
      cases hexit : it.exitFlag with
      | true =>
          rw [streamLoop_exit hexit]
          refine ⟨?_, ?_, ?_, ?_⟩ <;> simp
      | false =>
          cases hread : it.read with
          | line s =>
              rw [streamLoop_line hexit hread]
              obtain ⟨ih1, ih2, ih3, ih4⟩ := ih it.now
              refine ⟨?_, ?_, ?_, ?_⟩
              · intro hend
                obtain ⟨cs, hcs, heq⟩ := ih1 hend
                refine ⟨Frame.content s :: cs, ?_, ?_⟩
                · intro f hf
                  rcases List.mem_cons.mp hf with h | h
                  · rw [h]; rfl
                  · exact hcs f h
                · simp [heq]
              · exact ih2
              · intro hend
                obtain ⟨cs, s', hcs, heq⟩ := ih3 hend
                refine ⟨Frame.content s :: cs, s', ?_, ?_⟩
                · intro f hf
                  rcases List.mem_cons.mp hf with h | h
                  · rw [h]; rfl
                  · exact hcs f h
                · simp [heq]
              · intro hend f hf
                rcases List.mem_cons.mp hf with h | h
                · rw [h]; rfl
                · exact ih4 hend f h
          | eof =>
              by_cases ht : tout < it.now - la
              · rw [streamLoop_eof_timeout hexit hread ht]
                refine ⟨?_, ?_, ?_, ?_⟩ <;> simp
              · rw [streamLoop_eof_continue hexit hread ht]
                exact ih la
          | fault msg =>
              rw [streamLoop_fault hexit hread]
              refine ⟨?_, ?_, ?_, ?_⟩ <;> simp
              exact ⟨[], by simp, "Error reading log file: " ++ msg, by simp⟩

/-!
Concrete registry states used as inputs for counterexamples and witnesses.
-/

/-- A registry with one session "s" (metadata record at address 0), a running
non-raising monitor object at address 0 registered for it, and one persisted
log file. -/
def demoState : RegState :=
  { initialRegState with
      mons := fun _ =>
        { monitoring := true, hasThread := true, startCount := 1,
          logRaises := false },
      active_sessions := [("s", 0)],
      active_monitors := [("s", 0)],
      logFiles := ["session_s.log"] }

/-- Like `demoState` but the monitor's logger raises on the stop
announcement write. -/
def raisingState : RegState :=
  { initialRegState with
      mons := fun _ =>
        { monitoring := true, hasThread := true, startCount := 1,
          logRaises := true },
      active_sessions := [("s", 0)],
      active_monitors := [("s", 0)] }

/-- A registry with a single monitorless session "s" at address 0. -/
def sessionOnlyState : RegState :=
  { initialRegState with active_sessions := [("s", 0)] }

/-- The state after `register_session "s"`, `register_monitor "s"`, then a
second `register_session "s"` binding a fresh metadata record (address 1,
`monitoring: False`) while the monitor entry survives. -/
def rebindState : RegState :=
  register_session "s" 1
    (register_monitor "s" 0 (register_session "s" 0 initialRegState))

/-- C1 (counterexample): severity of a monitor log line is not a function of
the metrics, and RAM% = 96 does not yield a critical-class line: the log type
is drawn at random, and at RAM% 96 the monitor emits an INFO line under the
info draw; no draw yields a CRITICAL line at all. -/
theorem C1_counterexample :
    (monitorLogLine ⟨96, 0, 0⟩ .info 0).1 = LogLevel.INFO ∧
    LogLevel.INFO ≠ LogLevel.CRITICAL ∧
    (monitorLogLine ⟨96, 0, 0⟩ .info 0).1 ≠ LogLevel.CRITICAL ∧
    (monitorLogLine ⟨96, 0, 0⟩ .warning 0).1 ≠ LogLevel.CRITICAL ∧
    (monitorLogLine ⟨96, 0, 0⟩ .error 0).1 ≠ LogLevel.CRITICAL := by
  refine ⟨rfl, ?_, ?_, ?_, ?_⟩ <;> decide

/-- C1 (amended): the severity of a monitor log line equals the weighted
random draw (never CRITICAL — the monitor has no critical class); given the
draw, the message is selected deterministically from the metrics thresholds
(RAM% > 90 then load1 > 4 for the error class, RAM% > 80 then load1 > 2 then
CPU% > 50 for the warning class); concretely RAM% = 96 and RAM% = 92 under
the error draw give the critical-memory-pressure ERROR line, RAM% = 85 under
the warning draw the high-memory WARNING line, and nominal metrics under the
info draw the system-stats INFO line. -/
theorem C1_amended_severity :
    (∀ (m : Metrics) (draw : LogDraw) (pick : Fin 4),
      (monitorLogLine m draw pick).1 = draw.level ∧
      (monitorLogLine m draw pick).1 ≠ LogLevel.CRITICAL) ∧
    (∀ (m : Metrics) (pick : Fin 4), 90 < m.total_ram_percent →
      logErrorMessage m pick =
        .criticalMemoryPressure m.total_ram_percent) ∧
    (∀ (m : Metrics), 80 < m.total_ram_percent →
      logWarningMessage m = .highMemoryUsage m.total_ram_percent) ∧
    monitorLogLine ⟨96, 0, 0⟩ .error 0 =
      (LogLevel.ERROR, .criticalMemoryPressure 96) ∧
    monitorLogLine ⟨92, 0, 0⟩ .error 0 =
      (LogLevel.ERROR, .criticalMemoryPressure 92) ∧
    monitorLogLine ⟨85, 0, 0⟩ .warning 0 =
      (LogLevel.WARNING, .highMemoryUsage 85) ∧
    monitorLogLine ⟨10, 1/10, 5⟩ .info 0 = (LogLevel.INFO, .systemStats) := by
  refine ⟨?_, ?_, ?_, ?_, ?_, ?_, rfl⟩
  · intro m draw pick
    cases draw <;> exact ⟨rfl, by simp [monitorLogLine]⟩
  · intro m pick h
    simp [logErrorMessage, h]
  · intro m h
    simp [logWarningMessage, h]
  · show (LogLevel.ERROR, logErrorMessage ⟨96, 0, 0⟩ 0) = _
    rw [show logErrorMessage ⟨96, 0, 0⟩ 0 =
      MonitorMsg.criticalMemoryPressure 96 by decide]
  · show (LogLevel.ERROR, logErrorMessage ⟨92, 0, 0⟩ 0) = _
    rw [show logErrorMessage ⟨92, 0, 0⟩ 0 =
      MonitorMsg.criticalMemoryPressure 92 by decide]
  · show (LogLevel.WARNING, logWarningMessage ⟨85, 0, 0⟩) = _
    rw [show logWarningMessage ⟨85, 0, 0⟩ =
      MonitorMsg.highMemoryUsage 85 by decide]

/-- C1 (witness): the amended theorem applied at concrete inputs. -/
theorem C1_amended_severity_witness :
    (monitorLogLine ⟨96, 0, 3⟩ .warning 2).1 = LogDraw.warning.level ∧
    logErrorMessage ⟨96, 0, 0⟩ 1 = .criticalMemoryPressure 96 ∧
    logWarningMessage ⟨85, 0, 0⟩ = .highMemoryUsage 85 :=
  ⟨(C1_amended_severity.1 ⟨96, 0, 3⟩ .warning 2).1,
   C1_amended_severity.2.1 ⟨96, 0, 0⟩ 1 (by decide),
   C1_amended_severity.2.2.1 ⟨85, 0, 0⟩ (by decide)⟩

/-- C2 (counterexample): with "s" already registered (metadata record at
address 0), a second `register_session` call for "s" neither fails nor
preserves the old record — it silently rebinds "s" to the new record. -/
theorem C2_counterexample :
    lookupA "s" (register_session "s" 0 initialRegState).active_sessions =
      some 0 ∧
    lookupA "s"
        (register_session "s" 1
          (register_session "s" 0 initialRegState)).active_sessions =
      some 1 ∧
    some (1 : Nat) ≠ some 0 := by
  refine ⟨by decide, by decide, by decide⟩

/-- C2 (amended): `register_session` never fails: it binds the id to the
supplied metadata unconditionally (inserting a new entry when the id is
absent, silently replacing the existing record when it is present), leaving
all other sessions untouched; no DuplicateSession check exists in the
code. -/
theorem C2_amended_register (st : RegState) (sid : String) (a : Nat) :
    lookupA sid (register_session sid a st).active_sessions = some a ∧
    (∀ sid', sid' ≠ sid →
      lookupA sid' (register_session sid a st).active_sessions =
        lookupA sid' st.active_sessions) ∧
    ((lookupA sid st.active_sessions).isSome = false →
      (register_session sid a st).active_sessions.length =
        st.active_sessions.length + 1) ∧
    ((lookupA sid st.active_sessions).isSome = true →
      (register_session sid a st).active_sessions.length =
        st.active_sessions.length) := by
  refine ⟨?_, ?_, ?_, ?_⟩
  · rw [register_session_sessions]
    exact lookupA_insertA_self sid a st.active_sessions
  · intro sid' hne
    rw [register_session_sessions]
    exact lookupA_insertA_ne sid sid' a st.active_sessions hne
  · intro h
    rw [register_session_sessions, length_insertA, h]
    rfl
  · intro h
    rw [register_session_sessions, length_insertA, h]
    rfl

/-- C2 (witness): the amended theorem applied to a state where "s" is
already present. -/
theorem C2_amended_register_witness :
    lookupA "s"
        (register_session "s" 1 sessionOnlyState).active_sessions =
      some 1 ∧
    lookupA "t" (register_session "s" 1 sessionOnlyState).active_sessions =
      lookupA "t" sessionOnlyState.active_sessions ∧
    (register_session "s" 1 sessionOnlyState).active_sessions.length =
      sessionOnlyState.active_sessions.length :=
  ⟨(C2_amended_register sessionOnlyState "s" 1).1,
   (C2_amended_register sessionOnlyState "s" 1).2.1 "t" (by decide),
   (C2_amended_register sessionOnlyState "s" 1).2.2.2 (by decide)⟩

/-- C3 (counterexample): attaching a new monitor (address 1) for "s" while
the running monitor at address 0 is registered replaces the registry entry
but never stops the old monitor — after the call the old monitor object is
still running. -/
theorem C3_counterexample :
    lookupA "s" demoState.active_monitors = some 0 ∧
    (demoState.mons 0).monitoring = true ∧
    lookupA "s" (register_monitor "s" 1 demoState).active_monitors =
      some 1 ∧
    ((register_monitor "s" 1 demoState).mons 0).monitoring = true := by
  refine ⟨by decide, rfl, ?_, ?_⟩
  · rw [register_monitor_monitors]
    decide
  · rw [register_monitor_mons]
    rfl

theorem mem_insertA_key {α : Type} {k : String} {v : α} {p : String × α} :
    ∀ {l : List (String × α)}, (l.map Prod.fst).Nodup →
      p ∈ insertA k v l → p.1 = k → p = (k, v) := by
  intro l
  induction l with
  | nil =>
      intro _ h hk
      simpa [insertA] using h
  | cons q rest ih =>
      intro hnd h hk
      obtain ⟨k', v'⟩ := q
      simp only [List.map_cons, List.nodup_cons] at hnd
      by_cases hq : k' = k
      · subst hq
        unfold insertA at h
        rw [if_pos rfl] at h
        rcases List.mem_cons.mp h with h1 | h1
        · exact h1
        · exact absurd (List.mem_map.mpr ⟨p, h1, hk⟩) hnd.1
      · unfold insertA at h
        rw [if_neg hq] at h
        rcases List.mem_cons.mp h with h1 | h1
        · rw [h1] at hk
          exact absurd hk hq
        · exact ih hnd.2 h1 hk

/-- C3 (amended): `register_monitor` replaces the registry entry without
stopping the previous monitor: after the call the id maps to the new monitor
(and under unique dict keys it is the only entry for the id), while the
monitor heap — including the previously attached monitor's running state —
is completely untouched; the start-monitoring route compensates by calling
`stop_monitor` before `register_monitor`. -/
theorem C3_amended_attach (st : RegState) (sid : String) (a : Nat)
    (hnd : (st.active_monitors.map Prod.fst).Nodup) :
    lookupA sid (register_monitor sid a st).active_monitors = some a ∧
    (∀ p ∈ (register_monitor sid a st).active_monitors,
      p.1 = sid → p = (sid, a)) ∧
    (register_monitor sid a st).mons = st.mons := by
  refine ⟨?_, ?_, ?_⟩
  · rw [register_monitor_monitors]
    exact lookupA_insertA_self sid a st.active_monitors
  · intro p hp hfst
    rw [register_monitor_monitors] at hp
    exact mem_insertA_key hnd hp hfst
  · rw [register_monitor_mons]

/-- C3 (witness): the amended theorem applied to `demoState`, where "s"
already has a running monitor at address 0. -/
theorem C3_amended_attach_witness :
    lookupA "s" (register_monitor "s" 1 demoState).active_monitors =
      some 1 ∧
    (register_monitor "s" 1 demoState).mons = demoState.mons :=
  ⟨(C3_amended_attach demoState "s" 1 (by decide)).1,
   (C3_amended_attach demoState "s" 1 (by decide)).2.2⟩

/-- C4 (counterexample): `get_active_sessions` hands out the registry's own
metadata records: mutating the record reached through the snapshot (here
flipping its monitoring field) changes what the registry itself reads for
"s", so the returned value is not an immutable copy as claimed. -/
theorem C4_counterexample :
    readSessionMeta sessionOnlyState "s" =
      some { created_at := 0, last_activity := 0, monitoring := false } ∧
    lookupA "s" (get_active_sessions sessionOnlyState) = some 0 ∧
    readSessionMeta
        (writeMetaAt sessionOnlyState 0
          { created_at := 0, last_activity := 0, monitoring := true })
        "s" =
      some { created_at := 0, last_activity := 0, monitoring := true } ∧
    some ({ created_at := 0, last_activity := 0, monitoring := true } :
        Metadata) ≠
      some ({ created_at := 0, last_activity := 0, monitoring := false } :
        Metadata) := by
  refine ⟨by decide, by decide, by decide, by decide⟩

/-- C4 (amended): `dict(active_sessions)` is a shallow copy: the snapshot is
a fresh top-level mapping over the same metadata references, so writing
through a record obtained from the snapshot is immediately visible in the
registry's own view of that session (the start-monitoring and stream routes
rely on exactly this to update `last_activity`), while the top-level key
structure of the registry is untouched by such a write. -/
theorem C4_amended_snapshot (st : RegState) (sid : String) (a : Nat)
    (h : lookupA sid (get_active_sessions st) = some a) (r : Metadata) :
    readSessionMeta (writeMetaAt st a r) sid = some r ∧
    get_active_sessions (writeMetaAt st a r) = get_active_sessions st := by
  constructor
  · unfold readSessionMeta writeMetaAt
    rw [show ({ st with metas := fun n => if n = a then r else st.metas n } :
        RegState).active_sessions = st.active_sessions from rfl]
    rw [show get_active_sessions st = st.active_sessions from rfl] at h
    rw [h]
    simp
  · rfl

/-- C4 (witness): the amended theorem applied to `sessionOnlyState`. -/
theorem C4_amended_snapshot_witness :
    readSessionMeta
        (writeMetaAt sessionOnlyState 0
          { created_at := 0, last_activity := 7, monitoring := false })
        "s" =
      some { created_at := 0, last_activity := 7, monitoring := false } ∧
    get_active_sessions
        (writeMetaAt sessionOnlyState 0
          { created_at := 0, last_activity := 7, monitoring := false }) =
      get_active_sessions sessionOnlyState :=
  C4_amended_snapshot sessionOnlyState "s" 0 (by decide)
    { created_at := 0, last_activity := 7, monitoring := false }

/-- C5 (counterexample): the flag/monitor invariant fails on a state reached
by `register_session "s"`, `register_monitor "s"`, `register_session "s"`
(re-registration with a fresh monitoring-false metadata record): the monitor
entry survives while the new record's flag is false. -/
theorem C5_counterexample :
    lookupA "s" rebindState.active_sessions = some 1 ∧
    (rebindState.metas 1).monitoring = false ∧
    (lookupA "s" rebindState.active_monitors).isSome = true ∧
    ¬monitoringFlagInv rebindState := by
  refine ⟨by decide, by decide, by decide, ?_⟩
  intro h
  have h2 := (h "s" 1 (by decide)).mpr (by decide)
  exact absurd h2 (by decide)

/-- C5 (amended): the invariant holds on every state the registry reaches
when driven as the routes drive it — sessions registered under fresh ids
with fresh monitoring-false metadata records, monitors attached to
registered sessions with working loggers, and `stop_monitor`,
`unregister_session`, `shutdown_all` unrestricted: a registered session's
monitoring flag is true exactly when a monitor is registered for its id. -/
theorem C5_amended_invariant (st : RegState) (h : Reachable st) :
    monitoringFlagInv st :=
  (reachable_registryWF h).1

/-- C5 (witness): the amended theorem applied to the reachable state built
by registering session "s" and then attaching a monitor to it. -/
theorem C5_amended_invariant_witness :
    monitoringFlagInv
      (register_monitor "s" 0 (register_session "s" 0 initialRegState)) :=
  C5_amended_invariant _
    (Reachable.regMonitor _ "s" 0
      (Reachable.regSession _ "s" 0 Reachable.init (by decide) (by decide)
        (by decide))
      (by decide) (by decide))

/-- C6: `shutdown_all` stops every registered monitor (every registered
monitor object ends not-monitoring), empties both the session and the
monitor collections, deletes every persisted log artifact, and returns
counts whose sessions_cleared equals the number of sessions present at the
start (and whose logs_deleted equals the number of artifacts that existed);
the hypothesis is dict-key uniqueness, automatic for real Python dicts. -/
theorem C6_shutdown_all_spec (st : RegState)
    (hnd : (st.active_monitors.map Prod.fst).Nodup) :
    ((shutdown_all st).1).active_sessions = [] ∧
    ((shutdown_all st).1).active_monitors = [] ∧
    ((shutdown_all st).1).logFiles = [] ∧
    ((shutdown_all st).2).sessions_cleared = st.active_sessions.length ∧
    ((shutdown_all st).2).logs_deleted = st.logFiles.length ∧
    ∀ p ∈ st.active_monitors,
      (((shutdown_all st).1).mons p.2).monitoring = false := by
  refine ⟨shutdown_all_sessions st, shutdown_all_monitors st,
    shutdown_all_logFiles st, shutdown_all_sessions_cleared st,
    shutdown_all_logs_deleted st, ?_⟩
  intro p hp
  obtain ⟨sid, a⟩ := p
  rw [shutdown_all_mons]
  exact stopAllMonitors_stops hnd
    (List.mem_map.mpr ⟨(sid, a), hp, rfl⟩)
    (lookupA_of_mem_nodup hnd hp)

/-- C6 (witness): `shutdown_all` on `demoState` (one session, one running
monitor, one log file). -/
theorem C6_shutdown_all_spec_witness :
    ((shutdown_all demoState).1).active_sessions = [] ∧
    ((shutdown_all demoState).1).active_monitors = [] ∧
    ((shutdown_all demoState).1).logFiles = [] ∧
    ((shutdown_all demoState).2).sessions_cleared = 1 ∧
    ((shutdown_all demoState).2).logs_deleted = 1 ∧
    (((shutdown_all demoState).1).mons 0).monitoring = false :=
  ⟨(C6_shutdown_all_spec demoState (by decide)).1,
   (C6_shutdown_all_spec demoState (by decide)).2.1,
   (C6_shutdown_all_spec demoState (by decide)).2.2.1,
   (C6_shutdown_all_spec demoState (by decide)).2.2.2.1,
   (C6_shutdown_all_spec demoState (by decide)).2.2.2.2.1,
   (C6_shutdown_all_spec demoState (by decide)).2.2.2.2.2 ("s", 0)
     (by decide)⟩

/-- C7: monitor start and stop are idempotent on the running state: `start`
on a Running monitor returns at once — same object state (no new loop
launch, `startCount` unchanged) and no announcement line — and `stop` on an
Idle monitor returns at once with no state change and no log line. -/
theorem C7_monitor_idempotent (m : SystemMonitor) (interval : Nat) :
    (m.monitoring = true → m.start interval = .ok (m, [])) ∧
    (m.monitoring = false → m.stop = .ok (m, [])) := by
  constructor
  · intro h
    unfold SystemMonitor.start
    rw [h]
    simp
  · intro h
    unfold SystemMonitor.stop
    rw [h]
    simp

/-- C7 (witness): the idempotence theorem applied to a running and to an
idle monitor. -/
theorem C7_monitor_idempotent_witness :
    SystemMonitor.start
        { monitoring := true, hasThread := true, startCount := 1,
          logRaises := false } 2 =
      .ok ({ monitoring := true, hasThread := true, startCount := 1,
             logRaises := false }, []) ∧
    SystemMonitor.stop
        { monitoring := false, hasThread := false, startCount := 0,
          logRaises := false } =
      .ok ({ monitoring := false, hasThread := false, startCount := 0,
             logRaises := false }, []) :=
  ⟨(C7_monitor_idempotent _ 2).1 rfl, (C7_monitor_idempotent _ 2).2 rfl⟩

/-- C8: `stop_monitor` reports whether a monitor was actually stopped: with
no registered monitor for the id it returns False and changes nothing (in
particular it writes no log line); with a registered monitor whose stop does
not raise, it stops that monitor, removes it from the registry, sets the
session's monitoring flag to false, and returns True. -/
theorem C8_stop_monitor_spec (st : RegState) (sid : String) :
    (lookupA sid st.active_monitors = none →
      stop_monitor sid st = (st, false)) ∧
    (∀ a, lookupA sid st.active_monitors = some a →
      ¬(st.mons a).stopRaises →
      (stop_monitor sid st).2 = true ∧
      lookupA sid ((stop_monitor sid st).1).active_monitors = none ∧
      (((stop_monitor sid st).1).mons a).monitoring = false ∧
      (∀ sa, lookupA sid st.active_sessions = some sa →
        (((stop_monitor sid st).1).metas sa).monitoring = false)) := by
  constructor
  · exact fun h => stop_monitor_of_none h
  · intro a hl hnr
    obtain ⟨m1, lines, hstop⟩ := SystemMonitor.stop_ok_of_not_raises hnr
    refine ⟨stop_monitor_ok_snd hl hstop, ?_,
      stop_monitor_mons_monitoring_false hl, ?_⟩
    · rw [stop_monitor_ok_monitors hl hstop, lookupA_eraseA_self]
    · intro sa hs
      rw [stop_monitor_ok_metas_self hl hstop hs]

/-- C8 (witness): `stop_monitor` on `demoState` for an id with no monitor
("t") and for the monitored id "s". -/
theorem C8_stop_monitor_spec_witness :
    stop_monitor "t" demoState = (demoState, false) ∧
    (stop_monitor "s" demoState).2 = true ∧
    lookupA "s" ((stop_monitor "s" demoState).1).active_monitors = none ∧
    (((stop_monitor "s" demoState).1).mons 0).monitoring = false ∧
    (((stop_monitor "s" demoState).1).metas 0).monitoring = false :=
  ⟨(C8_stop_monitor_spec demoState "t").1 (by decide),
   ((C8_stop_monitor_spec demoState "s").2 0 (by decide) (by decide)).1,
   ((C8_stop_monitor_spec demoState "s").2 0 (by decide) (by decide)).2.1,
   ((C8_stop_monitor_spec demoState "s").2 0 (by decide) (by decide)).2.2.1,
   ((C8_stop_monitor_spec demoState "s").2 0 (by decide)
     (by decide)).2.2.2 0 (by decide)⟩

/-- C9 (counterexample): a run terminated by the global shutdown signal ends
with no final frame at all: after one content frame the exit flag is
observed and the generator simply returns — the emitted sequence ends with a
content frame, not an idle-timeout or error frame. -/
theorem C9_counterexample :
    stream_log_file .opened 0
        [{ exitFlag := false, read := .line "a", now := 1 },
         { exitFlag := true, read := .eof, now := 2 }] 60 =
      ([Frame.content "a"], .shutdownEnd) ∧
    Frame.content "a" ≠ Frame.idleTimeout ∧
    (Frame.content "a").isContent = true := by
  refine ⟨?_, by decide, rfl⟩
  show streamLoop 60 0 _ = _
  rw [streamLoop_line rfl rfl, streamLoop_exit rfl]

/-- C9 (amended): every terminating run of `stream_log_file` ends in one of
three ways — content frames followed by a single idle-timeout frame; content
frames (none, for a missing file) followed by a single error frame
(not-found for a missing file, internal for any other read fault); or, when
the global shutdown signal is observed, immediate end after the content
frames already emitted, with no final frame. -/
theorem C9_amended_stream_taxonomy (openR : OpenRes) (t0 : ℚ)
    (script : List StreamIter) (tout : ℚ) :
    ((stream_log_file openR t0 script tout).2 = .timeoutEnd →
      ∃ cs, (∀ f ∈ cs, f.isContent = true) ∧
        (stream_log_file openR t0 script tout).1 =
          cs ++ [Frame.idleTimeout]) ∧
    ((stream_log_file openR t0 script tout).2 = .notFoundEnd →
      (stream_log_file openR t0 script tout).1 =
        [Frame.errorNotFound "Log file not found"]) ∧
    ((stream_log_file openR t0 script tout).2 = .internalEnd →
      ∃ cs s, (∀ f ∈ cs, f.isContent = true) ∧
        (stream_log_file openR t0 script tout).1 =
          cs ++ [Frame.errorInternal s]) ∧
    ((stream_log_file openR t0 script tout).2 = .shutdownEnd →
      ∀ f ∈ (stream_log_file openR t0 script tout).1,
        f.isContent = true) := by
  cases openR with
  | missingFile =>
      refine ⟨?_, ?_, ?_, ?_⟩ <;> intro hend <;>
        simp [stream_log_file] at hend ⊢
  | openFault msg =>
      refine ⟨?_, ?_, ?_, ?_⟩ <;> intro hend <;>
        simp [stream_log_file] at hend ⊢
      exact ⟨[], by simp, "Error reading log file: " ++ msg, by simp⟩
  | opened =>
      obtain ⟨h1, h2, h3, h4⟩ := streamLoop_classify tout script t0
      exact ⟨h1, fun hend => absurd hend h2, h3, h4⟩

/-- C9 (witness): the amended taxonomy applied to a run that times out
after one content frame. -/
theorem C9_amended_stream_taxonomy_witness :
    ∃ cs, (∀ f ∈ cs, f.isContent = true) ∧
      (stream_log_file .opened 0
          [{ exitFlag := false, read := .line "a", now := 0 },
           { exitFlag := false, read := .eof, now := 100 }] 60).1 =
        cs ++ [Frame.idleTimeout] :=
  (C9_amended_stream_taxonomy .opened 0
      [{ exitFlag := false, read := .line "a", now := 0 },
       { exitFlag := false, read := .eof, now := 100 }] 60).1
    (by
      show (streamLoop 60 0 _).2 = _
      rw [streamLoop_line rfl rfl,
        streamLoop_eof_timeout rfl rfl (by simp only [sub_zero]; decide)])

/-- C10: `stop_monitor` is atomic on failure: when the registered monitor's
`stop()` raises, the exception is caught, False is returned, and the
registry is unchanged — the monitor entry stays registered, the session
collection is untouched, and every session's metadata record (including the
monitoring flag) keeps its prior value. -/
theorem C10_stop_monitor_atomic (st : RegState) (sid : String) (a : Nat)
    (h : lookupA sid st.active_monitors = some a)
    (hr : (st.mons a).stopRaises) :
    (stop_monitor sid st).2 = false ∧
    ((stop_monitor sid st).1).active_monitors = st.active_monitors ∧
    ((stop_monitor sid st).1).active_sessions = st.active_sessions ∧
    ((stop_monitor sid st).1).metas = st.metas := by
  rw [stop_monitor_raises_eq h hr]
  exact ⟨rfl, rfl, rfl, rfl⟩

/-- C10 (witness): the atomicity theorem applied to `raisingState`, whose
monitor raises on the stop announcement write. -/
theorem C10_stop_monitor_atomic_witness :
    (stop_monitor "s" raisingState).2 = false ∧
    ((stop_monitor "s" raisingState).1).active_monitors =
      raisingState.active_monitors ∧
    ((stop_monitor "s" raisingState).1).active_sessions =
      raisingState.active_sessions ∧
    ((stop_monitor "s" raisingState).1).metas = raisingState.metas :=
  C10_stop_monitor_atomic raisingState "s" 0 (by decide) (by decide)
